import Mathlib

/-!
Shallow embedding of the eevee configuration-reading library
(`src/unnamed/part_000`): a value envelope `V`, transformers
`VT = V → Except JSError V`, the built-in coercions
(`must`, `asISODate`, `asDuration`, `asInt`, `asBool`, `secret`),
the pipeline composer `pipe`, the evaluator `ev` and the binder `bind`.

JavaScript dynamic values flowing through an envelope are modelled by
`JSVal`; JavaScript numbers by `JSNum` (exact rationals, with explicit
NaN and signed infinities; float rounding is idealised away).  Thrown
JavaScript errors are modelled by the `Except JSError` monad; a thrown
`Error`, `TypeError` and `RangeError` are kept distinct.
-/

set_option autoImplicit false
set_option maxRecDepth 4000

namespace Eevee

/-- A JavaScript number: NaN, the two infinities, or an exact value. -/
inductive JSNum where
  | nan
  | posInf
  | negInf
  | val (q : ℚ)
  deriving DecidableEq, Repr

/-- A JavaScript value as it can appear in an envelope in this library:
`undefined`, a string, a number, a boolean, a valid `Date` (epoch
milliseconds) or an invalid `Date`. -/
inductive JSVal where
  | undef
  | str (s : String)
  | num (n : JSNum)
  | bool (b : Bool)
  | date (t : ℤ)
  | invalidDate
  deriving DecidableEq, Repr

/-- The value envelope `V<T>` of the source: `{ value, name, secret }`.
The TypeScript type parameter is erased; `value` is a dynamic `JSVal`. -/
structure V where
  value : JSVal
  name : String
  secret : Bool
  deriving DecidableEq, Repr

/-- A thrown JavaScript error: `new Error(msg)`, a `TypeError`, or a
`RangeError` (as thrown by `Date.prototype.toISOString` on an invalid
date). -/
inductive JSError where
  | error (msg : String)
  | typeError (msg : String)
  | rangeError (msg : String)
  deriving DecidableEq, Repr

deriving instance DecidableEq for Except

/-- A transformer `VT<T>`: envelope in, envelope out, may throw. -/
abbrev VT := V → Except JSError V

/-- JavaScript truthiness of a `JSVal` (`!v.value` in the source is
`¬ truthy v.value`). -/
def truthy : JSVal → Bool
  | .undef => false
  | .str s => s != ""
  | .num .nan => false
  | .num (.val q) => q != 0
  | .num _ => true
  | .bool b => b
  | .date _ => true
  | .invalidDate => true

/-- The transformer `must`: requires a truthy value, passes it through. -/
def must : VT := fun v =>
  if truthy v.value then
    .ok { value := v.value, name := v.name, secret := v.secret }
  else
    .error (.error (v.name ++ " is not defined"))

/-- The transformer `secret`: sets the sensitivity flag, value and name
unchanged. -/
def secret : VT := fun v =>
  .ok { value := v.value, name := v.name, secret := true }

/-- The pipeline composer `pipe`: threads the initial envelope through
the stages left to right; a thrown error short-circuits via `Except`. -/
def pipe (ts : List VT) : VT := fun initial =>
  ts.foldlM (fun v t => t v) initial

/-- A `Reader` (a callable yielding an envelope for a name) or a
`BasicReader` (a plain mapping from name to optional string); `ev`
dispatches on `typeof r === 'function'`. -/
inductive Source where
  | reader (f : String → V)
  | basic (m : String → Option String)

/-- An optional string as the JavaScript value `r[name]`
(`undefined` when the key is missing). -/
def jsOfOpt : Option String → JSVal
  | none => .undef
  | some s => .str s

/-- The raw envelope `ev` builds before any transform runs. -/
def rawEnvelope (r : Source) (name : String) : V :=
  match r with
  | .reader f => f name
  | .basic m => { value := jsOfOpt (m name), name := name, secret := false }

/-- The evaluator `ev`: builds the raw envelope, then either returns its
value or applies the transform and returns the result's value. -/
def ev (r : Source) (name : String) (t : Option VT) : Except JSError JSVal :=
  let v := rawEnvelope r name
  match t with
  | some t => (t v).map V.value
  | none => .ok v.value

/-- The binder `bind`: curries a `Reader` and an optional applier into a
call-by-name evaluator, mirroring the `if (applier && transform)`
chain of the source. -/
def bind (r : String → V) (applier : Option (VT → VT)) :
    String → Option VT → Except JSError JSVal :=
  fun name transform =>
    match applier, transform with
    | some a, some t => ev (.reader r) name (some (a t))
    | none, some t => ev (.reader r) name (some t)
    | _, none => ev (.reader r) name none

/-! ## JavaScript number semantics (`Number(value)`)

Exact rational arithmetic stands in for IEEE doubles; NaN and the two
infinities are explicit.  The string-to-number grammar follows
ECMA-262 `StringNumericLiteral`: optional whitespace, an optional sign
on decimal literals and `Infinity`, decimal digits with optional
fraction and exponent, and unsigned `0x`/`0o`/`0b` literals. -/

/-- JavaScript whitespace stripped by `Number(string)`. -/
def isJSWhite (c : Char) : Bool :=
  c = ' ' || c = '\t' || c = '\n' || c = '\r' ||
    c.val = 11 || c.val = 12 || c.val = 0xA0 || c.val = 0xFEFF

/-- Strip leading and trailing JavaScript whitespace. -/
def jsTrim (l : List Char) : List Char :=
  ((l.dropWhile isJSWhite).reverse.dropWhile isJSWhite).reverse

/-- Value of a digit list in a given radix (digits assumed valid). -/
def natOfRadix (r : Nat) (l : List Char) : Nat :=
  l.foldl (fun a c =>
    a * r + (if c.isDigit then c.toNat - 48
             else if 'a' ≤ c then c.toNat - 87 else c.toNat - 55)) 0

/-- Value of a decimal digit list. -/
def natOfDigits (l : List Char) : Nat := natOfRadix 10 l

/-- Ten to an integer power, as a rational. -/
def pow10 (e : ℤ) : ℚ :=
  if 0 ≤ e then ((10 : ℚ) ^ e.toNat) else ((10 : ℚ) ^ (-e).toNat)⁻¹

/-- Parse a trailing exponent part `(e|E)(+|-)?digits`; an empty rest
means exponent 0; anything else fails the numeric literal. -/
def expPart : List Char → Option ℤ
  | [] => some 0
  | c :: rest =>
    if c = 'e' || c = 'E' then
      match rest with
      | '+' :: ds =>
        if !ds.isEmpty && ds.all Char.isDigit then some (natOfDigits ds) else none
      | '-' :: ds =>
        if !ds.isEmpty && ds.all Char.isDigit then some (-(natOfDigits ds : ℤ)) else none
      | ds =>
        if !ds.isEmpty && ds.all Char.isDigit then some (natOfDigits ds) else none
    else none

/-- Parse an unsigned decimal literal `digits [. digits] [exp]` or
`. digits [exp]`, consuming the whole list. -/
def parseUnsignedDec (l : List Char) : Option ℚ :=
  let intDigits := l.takeWhile Char.isDigit
  let rest := l.dropWhile Char.isDigit
  match rest with
  | '.' :: rest2 =>
    let fracDigits := rest2.takeWhile Char.isDigit
    let rest3 := rest2.dropWhile Char.isDigit
    if intDigits.isEmpty && fracDigits.isEmpty then none
    else
      (expPart rest3).map fun e =>
        ((natOfDigits intDigits : ℚ) +
          (natOfDigits fracDigits : ℚ) * pow10 (-(fracDigits.length : ℤ))) * pow10 e
  | _ =>
    if intDigits.isEmpty then none
    else (expPart rest).map fun e => (natOfDigits intDigits : ℚ) * pow10 e

/-- Hexadecimal digit test. -/
def isHexDigit (c : Char) : Bool :=
  c.isDigit || ('a' ≤ c && c ≤ 'f') || ('A' ≤ c && c ≤ 'F')

/-- Parse a possibly signed decimal literal or `Infinity`. -/
def decOrInf (neg : Bool) (l : List Char) : JSNum :=
  if l = "Infinity".data then (if neg then .negInf else .posInf)
  else
    match parseUnsignedDec l with
    | some q => .val (if neg then -q else q)
    | none => .nan

/-- Parse an unsigned numeric literal: `0x`/`0o`/`0b` forms or a
decimal literal / `Infinity`. -/
def unsignedLit (l : List Char) : JSNum :=
  match l with
  | '0' :: c :: ds =>
    if c = 'x' || c = 'X' then
      if !ds.isEmpty && ds.all isHexDigit then .val (natOfRadix 16 ds) else .nan
    else if c = 'o' || c = 'O' then
      if !ds.isEmpty && ds.all (fun d => '0' ≤ d && d ≤ '7') then .val (natOfRadix 8 ds) else .nan
    else if c = 'b' || c = 'B' then
      if !ds.isEmpty && ds.all (fun d => d = '0' || d = '1') then .val (natOfRadix 2 ds) else .nan
    else decOrInf false l
  | _ => decOrInf false l

/-- `Number(string)`: trim; empty is 0; a sign admits only a decimal
literal or `Infinity`; otherwise any unsigned numeric literal. -/
def jsStringToNum (s : String) : JSNum :=
  let l := jsTrim s.data
  if l.isEmpty then .val 0
  else
    match l with
    | '+' :: r => decOrInf false r
    | '-' :: r => decOrInf true r
    | _ => unsignedLit l

/-- `Number(value)` on the values of this model (`Number(undefined)` is
NaN, booleans are 0/1, a valid `Date` is its epoch milliseconds). -/
def jsToNumber : JSVal → JSNum
  | .undef => .nan
  | .str s => jsStringToNum s
  | .num n => n
  | .bool b => .val (if b then 1 else 0)
  | .date t => .val (t : ℚ)
  | .invalidDate => .nan

/-- JavaScript addition on numbers. -/
def JSNum.add : JSNum → JSNum → JSNum
  | .nan, _ => .nan
  | _, .nan => .nan
  | .posInf, .negInf => .nan
  | .negInf, .posInf => .nan
  | .posInf, _ => .posInf
  | _, .posInf => .posInf
  | .negInf, _ => .negInf
  | _, .negInf => .negInf
  | .val a, .val b => .val (a + b)

/-- JavaScript multiplication on numbers. -/
def JSNum.mul : JSNum → JSNum → JSNum
  | .nan, _ => .nan
  | _, .nan => .nan
  | .val a, .val b => .val (a * b)
  | .val a, .posInf => if a = 0 then .nan else if 0 < a then .posInf else .negInf
  | .val a, .negInf => if a = 0 then .nan else if 0 < a then .negInf else .posInf
  | .posInf, .val b => if b = 0 then .nan else if 0 < b then .posInf else .negInf
  | .negInf, .val b => if b = 0 then .nan else if 0 < b then .negInf else .posInf
  | .posInf, .posInf => .posInf
  | .posInf, .negInf => .negInf
  | .negInf, .posInf => .negInf
  | .negInf, .negInf => .posInf

/-- The transformer `asInt`: default (an explicit argument here, `0` at
the source's default) when the value is `undefined`; otherwise
`Number(v.value)`, failing exactly when that is NaN. -/
def asInt (v : V) (defaultValue : ℚ) : Except JSError V :=
  if v.value = .undef then
    .ok { value := .num (.val defaultValue), name := v.name, secret := v.secret }
  else
    if jsToNumber v.value = .nan then
      .error (.error (v.name ++ " is not a number"))
    else
      .ok { value := .num (jsToNumber v.value), name := v.name, secret := v.secret }

/-- The transformer `asBool`: default when `undefined`; otherwise a
case-insensitive match against the truthy and falsy word sets.  On a
non-string defined value, `v.value.toLowerCase()` throws a
`TypeError`. -/
def asBool (v : V) (defaultValue : Bool) : Except JSError V :=
  if v.value = .undef then
    .ok { value := .bool defaultValue, name := v.name, secret := v.secret }
  else
    match v.value with
    | .str s =>
      if ["yes", "true", "on", "1"].contains s.toLower then
        .ok { value := .bool true, name := v.name, secret := v.secret }
      else if ["no", "false", "off", "0"].contains s.toLower then
        .ok { value := .bool false, name := v.name, secret := v.secret }
      else
        .error (.error (v.name ++ " is not a valid boolean value."))
    | _ => .error (.typeError "v.value.toLowerCase is not a function")

/-! ## The duration regex `(\d+[smhDMY])+`

`String.prototype.match` without the `g` flag finds the leftmost match
and reports capture groups; a repeated capture group retains only its
last repetition, so `match[1]` is the **last** `<digits><unit>` token
of the matched run.  Digits and unit letters are disjoint character
classes, so greedy matching needs no backtracking: a token at a
position is a maximal nonempty digit run followed by a unit letter. -/

/-- The character class `[smhDMY]`. -/
def isDurUnit (c : Char) : Bool :=
  c = 's' || c = 'm' || c = 'h' || c = 'D' || c = 'M' || c = 'Y'

/-- Match one `\d+[smhDMY]` token at the head: the token's characters
and the remainder. -/
def matchToken (l : List Char) : Option (List Char × List Char) :=
  let ds := l.takeWhile Char.isDigit
  let rest := l.dropWhile Char.isDigit
  match rest with
  | c :: rest2 => if !ds.isEmpty && isDurUnit c then some (ds ++ [c], rest2) else none
  | [] => none

/-- Match `(token)+` greedily at the head (fuel-indexed; each token
consumes at least one character, so `l.length + 1` fuel is exact).
Returns the full match and the last token (the retained group). -/
def matchPlusAux : Nat → List Char → Option (List Char × List Char)
  | 0, _ => none
  | fuel + 1, l =>
    match matchToken l with
    | none => none
    | some (tok, rest) =>
      match matchPlusAux fuel rest with
      | none => some (tok, tok)
      | some (full, last) => some (tok ++ full, last)

/-- Leftmost match of `(\d+[smhDMY])+` in the list: the full match and
the captured (last) token, or `none` when the regex does not match. -/
def regexScan : List Char → Option (List Char × List Char)
  | [] => none
  | c :: tl =>
    match matchPlusAux (tl.length + 2) (c :: tl) with
    | some r => some r
    | none => regexScan tl

/-- `s.match(/(\d+[smhDMY])+/)` as (full match, group 1), or `none`. -/
def durMatch (s : String) : Option (String × String) :=
  (regexScan s.data).map fun p => (⟨p.1⟩, ⟨p.2⟩)

/-- JavaScript bracket access `s[i]` on a string: a property lookup, so
a negative index yields `undefined` (here `none`), never the last
character. -/
def stringAt (s : String) (i : ℤ) : Option Char :=
  if h : 0 ≤ i ∧ i.toNat < s.data.length then some (s.data.get ⟨i.toNat, h.2⟩) else none

/-- JavaScript `s.slice(0, -1)`: all but the last character. -/
def sliceDropLast (s : String) : String := ⟨s.data.dropLast⟩

/-- String interpolation of the `unit` variable (`undefined` prints as
the word `undefined`). -/
def jsDisplay : Option Char → String
  | none => "undefined"
  | some c => ⟨[c]⟩

/-- One iteration of the `for (const part of match.slice(1))` loop of
`asDuration`: `value` is `Number(part.slice(0, -1))`, `unit` is
`part[-1]`, and the `switch` adds `value * factor` or throws on the
`default` branch. -/
def durStep (_name : String) (duration : JSNum) (part : String) : Except JSError JSNum :=
  let value := jsStringToNum (sliceDropLast part)
  let unit := stringAt part (-1)
  match unit with
  | some 's' => .ok (duration.add (value.mul (.val 1000)))
  | some 'm' => .ok (duration.add (value.mul (.val (60 * 1000))))
  | some 'h' => .ok (duration.add (value.mul (.val (60 * 60 * 1000))))
  | some 'D' => .ok (duration.add (value.mul (.val (24 * 60 * 60 * 1000))))
  | some 'M' => .ok (duration.add (value.mul (.val (30 * 24 * 60 * 60 * 1000))))
  | some 'Y' => .ok (duration.add (value.mul (.val (365 * 24 * 60 * 60 * 1000))))
  | _ =>
    .error (.error ("Invalid unit encountered: " ++ jsDisplay unit ++
      ". This is a bug, please report this."))

/-- The transformer `asDuration`: default when `undefined`; otherwise
match the duration regex (failing with "is not a valid duration" when
it does not match anywhere in the string), then loop over
`match.slice(1)` — the single retained capture group — accumulating
`duration` through the unit `switch`.  On a non-string defined value
`v.value.match` throws a `TypeError`. -/
def asDuration (v : V) (defaultValue : ℚ) : Except JSError V :=
  if v.value = .undef then
    .ok { value := .num (.val defaultValue), name := v.name, secret := v.secret }
  else
    match v.value with
    | .str s =>
      match durMatch s with
      | none => .error (.error (v.name ++ " is not a valid duration"))
      | some (_, lastGroup) =>
        match [lastGroup].foldlM (durStep v.name) (.val 0) with
        | .error e => .error e
        | .ok duration =>
          .ok { value := .num duration, name := v.name, secret := v.secret }
    | _ => .error (.typeError "v.value.match is not a function")

/-! ## JavaScript `Date` semantics

`new Date(string)` and `Date.prototype.toISOString`, modelled over
epoch milliseconds (`ℤ`).  The parser follows the ECMA-262 Date Time
String Format `YYYY[-MM[-DD]][THH:mm[:ss[.sss]][Z|±HH:mm]]` with
expanded six-digit signed years; a date-time without an offset is
interpreted in the host time zone, which this model fixes to UTC.
Engine-specific fallback formats (e.g. `Jan 1 2020`) are outside the
model; such strings can never round-trip through `toISOString`, so
`asISODate` rejects them either way.  An unparseable string yields an
invalid `Date`, on which `toISOString` throws a `RangeError`. -/

/-- Leap year in the proleptic Gregorian calendar. -/
def isLeap (y : ℤ) : Bool :=
  Int.emod y 4 == 0 && (Int.emod y 100 != 0 || Int.emod y 400 == 0)

/-- Days in a month (month 1–12). -/
def daysInMonth (y : ℤ) (m : Nat) : Nat :=
  if m = 2 then (if isLeap y then 29 else 28)
  else if m = 4 ∨ m = 6 ∨ m = 9 ∨ m = 11 then 30
  else 31

/-- Days since 1970-01-01 of a civil date (proleptic Gregorian). -/
def daysFromCivil (y : ℤ) (m d : Nat) : ℤ :=
  let y' : ℤ := y - (if m ≤ 2 then 1 else 0)
  let era : ℤ := Int.ediv y' 400
  let yoe : Nat := (y' - era * 400).toNat
  let doy : Nat := (153 * (if m > 2 then m - 3 else m + 9) + 2) / 5 + d - 1
  let doe : Nat := yoe * 365 + yoe / 4 - yoe / 100 + doy
  era * 146097 + (doe : ℤ) - 719468

/-- Civil date (year, month, day) of a day count since 1970-01-01. -/
def civilFromDays (z : ℤ) : ℤ × Nat × Nat :=
  let z' := z + 719468
  let era := Int.ediv z' 146097
  let doe : Nat := (z' - era * 146097).toNat
  let yoe := (doe - doe / 1460 + doe / 36524 - doe / 146096) / 365
  let doy := doe - (365 * yoe + yoe / 4 - yoe / 100)
  let mp := (5 * doy + 2) / 153
  let d := doy - (153 * mp + 2) / 5 + 1
  let m := if mp < 10 then mp + 3 else mp - 9
  ((yoe : ℤ) + era * 400 + (if m ≤ 2 then 1 else 0), m, d)

/-- Zero-pad a number to a width. -/
def padNum (w n : Nat) : String :=
  ⟨List.replicate (w - (toString n).length) '0'⟩ ++ toString n

/-- The year field of `toISOString`: four digits inside 0–9999,
otherwise the expanded signed six-digit form. -/
def formatYear (y : ℤ) : String :=
  if 0 ≤ y ∧ y ≤ 9999 then padNum 4 y.toNat
  else if 0 ≤ y then "+" ++ padNum 6 y.toNat
  else "-" ++ padNum 6 (-y).toNat

/-- `Date.prototype.toISOString` on a finite time value:
`YYYY-MM-DDTHH:mm:ss.sssZ`. -/
def toISO (t : ℤ) : String :=
  let days := Int.ediv t 86400000
  let msOfDay := (Int.emod t 86400000).toNat
  let c := civilFromDays days
  formatYear c.1 ++ "-" ++ padNum 2 c.2.1 ++ "-" ++ padNum 2 c.2.2 ++ "T" ++
    padNum 2 (msOfDay / 3600000) ++ ":" ++ padNum 2 (msOfDay / 60000 % 60) ++ ":" ++
    padNum 2 (msOfDay / 1000 % 60) ++ "." ++ padNum 3 (msOfDay % 1000) ++ "Z"

/-- ECMA `TimeClip`: time values beyond ±8.64e15 ms are invalid. -/
def timeClip (t : ℤ) : Option ℤ :=
  if t.natAbs ≤ 8640000000000000 then some t else none

/-- Consume exactly `n` decimal digits. -/
def takeDigits (n : Nat) (l : List Char) : Option (Nat × List Char) :=
  let ds := l.take n
  if ds.length == n && ds.all Char.isDigit then some (natOfDigits ds, l.drop n) else none

/-- Parse the year field: four digits, or a sign with six digits
(`-000000` is invalid). -/
def parseYear : List Char → Option (ℤ × List Char)
  | '+' :: l => (takeDigits 6 l).map fun p => ((p.1 : ℤ), p.2)
  | '-' :: l => do
    let p ← takeDigits 6 l
    if p.1 = 0 then none else some ((-(p.1 : ℤ)), p.2)
  | l => (takeDigits 4 l).map fun p => ((p.1 : ℤ), p.2)

/-- Parse an optional fraction `.s`–`.sss`, scaled to milliseconds. -/
def parseFrac (l : List Char) : Option (Nat × List Char) :=
  match l with
  | '.' :: r =>
    let ds := r.takeWhile Char.isDigit
    if ds.isEmpty || decide (ds.length > 3) then none
    else some (natOfDigits ds * 10 ^ (3 - ds.length), r.dropWhile Char.isDigit)
  | _ => some (0, l)

/-- Parse `HH:mm[:ss[.sss]]`: hours, minutes, seconds, milliseconds. -/
def parseTime (l : List Char) : Option (Nat × Nat × Nat × Nat × List Char) := do
  let (hh, r1) ← takeDigits 2 l
  match r1 with
  | ':' :: r2 => do
    let (mi, r3) ← takeDigits 2 r2
    match r3 with
    | ':' :: r4 => do
      let (ss, r5) ← takeDigits 2 r4
      let (ms, r6) ← parseFrac r5
      pure (hh, mi, ss, ms, r6)
    | _ => pure (hh, mi, 0, 0, r3)
  | _ => none

/-- Parse the time-zone suffix: nothing (host zone, fixed to UTC
here), `Z`, or `±HH:mm`; yields the offset in minutes. -/
def parseTZ : List Char → Option ℤ
  | [] => some 0
  | ['Z'] => some 0
  | c :: l =>
    if c = '+' ∨ c = '-' then do
      let (hh, r1) ← takeDigits 2 l
      match r1 with
      | ':' :: r2 => do
        let (mi, r3) ← takeDigits 2 r2
        if r3.isEmpty ∧ hh ≤ 23 ∧ mi ≤ 59 then
          pure (if c = '-' then -((hh * 60 + mi : Nat) : ℤ) else ((hh * 60 + mi : Nat) : ℤ))
        else none
      | _ => none
    else none

/-- `Date.parse` on a Date Time String Format string: epoch
milliseconds, or `none` for an invalid date. -/
def jsDateParse (s : String) : Option ℤ := do
  let (y, r1) ← parseYear s.data
  let (m, d, r2) ←
    match r1 with
    | '-' :: r => do
      let (m, r3) ← takeDigits 2 r
      match r3 with
      | '-' :: r4 => do
        let (d, r5) ← takeDigits 2 r4
        pure (m, d, r5)
      | _ => pure (m, 1, r3)
    | _ => pure (1, 1, r1)
  if 1 ≤ m ∧ m ≤ 12 ∧ 1 ≤ d ∧ d ≤ daysInMonth y m then
    match r2 with
    | 'T' :: r => do
      let (hh, mi, ss, ms, r6) ← parseTime r
      let off ← parseTZ r6
      if (hh ≤ 23 ∨ (hh = 24 ∧ mi = 0 ∧ ss = 0 ∧ ms = 0)) ∧ mi ≤ 59 ∧ ss ≤ 59 then
        timeClip (daysFromCivil y m d * 86400000 +
          (hh * 3600000 + mi * 60000 + ss * 1000 + ms : Nat) - off * 60000)
      else none
    | [] => timeClip (daysFromCivil y m d * 86400000)
    | _ => none
  else none

/-- `new Date(value)`: a string is parsed; a finite number is a time
value after truncation and clipping; NaN, infinities and `undefined`
give an invalid `Date`. -/
def jsNewDate : JSVal → JSVal
  | .str s =>
    match jsDateParse s with
    | some t => .date t
    | none => .invalidDate
  | .num (.val q) =>
    match timeClip (if 0 ≤ q then Rat.floor q else Rat.ceil q) with
    | some t => .date t
    | none => .invalidDate
  | .num _ => .invalidDate
  | .bool b => .date (if b then 1 else 0)
  | .undef => .invalidDate
  | .date t => .date t
  | .invalidDate => .invalidDate

/-- `date.toISOString()`: formats a valid `Date`, throws a
`RangeError` on an invalid one. -/
def jsToISOString : JSVal → Except JSError String
  | .date t => .ok (toISO t)
  | .invalidDate => .error (.rangeError "Invalid time value")
  | _ => .error (.typeError "date.toISOString is not a function")

/-- The transformer `asISODate`: builds `new Date(v.value)`, calls
`toISOString()` on it (which throws a `RangeError` on an invalid
date), and requires strict equality of the ISO string with the input
value; on round-trip failure it throws "is not a valid date". -/
def asISODate : VT := fun v =>
  match jsToISOString (jsNewDate v.value) with
  | .error e => .error e
  | .ok iso =>
    if v.value = .str iso then
      .ok { value := jsNewDate v.value, name := v.name, secret := v.secret }
    else
      .error (.error (v.name ++ " is not a valid date"))

/-! ## Test fixtures for the binder claims -/

/-- Bracket a string value (left intact otherwise); used to observe
how many times an applier wraps a transform. -/
def tagVal : JSVal → JSVal
  | .str s => .str ("[" ++ s ++ "]")
  | x => x

/-- An applier that brackets the resulting string value once per
invocation of the wrapped transform. -/
def tagApplier : VT → VT := fun t v =>
  (t v).map fun w => { w with value := tagVal w.value }

/-- A reader yielding the string `x` for every name. -/
def demoReader : String → V := fun name =>
  { value := .str "x", name := name, secret := false }

/-! ## Claims -/

/-- C1: the claim says `asDuration` sums the `<integer><unit>` tokens
(so `"90s" ↦ 90000` and `"1D" ↦ 86400000`) and returns the default on
an undefined value.  The code reads the unit character as `part[-1]`,
which is `undefined` in JavaScript, so every matching duration string
falls into the `default` branch of the unit switch and throws; only
the undefined-value default path behaves as claimed. -/
theorem C1_asDuration_behavior :
    asDuration { value := .str "90s", name := "X", secret := false } 0 =
      .error (.error
        "Invalid unit encountered: undefined. This is a bug, please report this.") ∧
    asDuration { value := .str "1D", name := "X", secret := false } 0 =
      .error (.error
        "Invalid unit encountered: undefined. This is a bug, please report this.") ∧
    asDuration { value := .undef, name := "X", secret := false } 5000 =
      .ok { value := .num (.val 5000), name := "X", secret := false } :=
  ⟨rfl, rfl, rfl⟩

/-- C2: the claim says the "Invalid unit encountered" branch is
unreachable for inputs matching the token pattern and that the only
error on defined strings is "is not a valid duration".  In the code
`part[-1]` is `undefined`, so the supposedly impossible branch is
reached for every matching input (here `"2h"`); the "is not a valid
duration" error does occur exactly on non-matching strings (here
`"@@"`). -/
theorem C2_invalid_unit_branch (name : String) (sec : Bool) (d : ℚ) :
    asDuration { value := .str "2h", name := name, secret := sec } d =
      .error (.error
        "Invalid unit encountered: undefined. This is a bug, please report this.") ∧
    asDuration { value := .str "@@", name := name, secret := sec } d =
      .error (.error (name ++ " is not a valid duration")) :=
  ⟨rfl, rfl⟩

/-- C3: `pipe` with zero stages is the identity on envelopes; a
non-empty pipeline threads the envelope left-to-right (the head stage
runs first and its result feeds the rest), the first error aborts the
whole pipeline whatever stages follow, and the error propagates
unmodified; `pipe [must, asInt]` maps value `"10"` to 10 and throws
the `must` error on an undefined value. -/
theorem C3_pipe_composition :
    (∀ v, pipe [] v = .ok v) ∧
    (∀ t ts v, pipe (t :: ts) v = (t v).bind (pipe ts)) ∧
    (∀ t ts v e, t v = .error e → pipe (t :: ts) v = .error e) ∧
    pipe [must, fun v => asInt v 0] { value := .str "10", name := "P", secret := false } =
      .ok { value := .num (.val 10), name := "P", secret := false } ∧
    pipe [must, fun v => asInt v 0] { value := .undef, name := "P", secret := false } =
      .error (.error "P is not defined") := by
  refine ⟨fun v => rfl, fun t ts v => rfl, ?_, by with_unfolding_all rfl, by with_unfolding_all rfl⟩
  intro t ts v e h
  show (t v).bind (pipe ts) = .error e
  rw [h]; rfl

/-- Witness for C3: the abort clause applied to the concrete pipeline
`pipe [must, asInt]` on an undefined value. -/
theorem C3_pipe_composition_witness :
    pipe [must, fun v => asInt v 0] { value := .undef, name := "Q", secret := false } =
      .error (.error "Q is not defined") :=
  C3_pipe_composition.2.2.1 must [fun v => asInt v 0]
    { value := .undef, name := "Q", secret := false } (.error "Q is not defined") rfl

/-- C4: `ev` builds the raw envelope by calling a function-shaped
source with the name, or as `{value: source[name], name, secret:
false}` for a mapping; with no transform it returns the raw value
(undefined for a missing key), with a transform it returns
`transform(raw).value` and propagates the transform's error
unmodified. -/
theorem C4_ev_evaluator :
    (∀ m name, rawEnvelope (.basic m) name =
      { value := jsOfOpt (m name), name := name, secret := false }) ∧
    (∀ f name, rawEnvelope (.reader f) name = f name) ∧
    (∀ r name, ev r name none = .ok (rawEnvelope r name).value) ∧
    (∀ r name t w, t (rawEnvelope r name) = .ok w → ev r name (some t) = .ok w.value) ∧
    (∀ r name t e, t (rawEnvelope r name) = .error e → ev r name (some t) = .error e) ∧
    ev (.basic fun k => if k = "KEY" then some "v" else none) "KEY" none = .ok (.str "v") ∧
    ev (.basic fun _ => none) "MISSING" none = .ok .undef := by
  refine ⟨fun m name => rfl, fun f name => rfl, fun r name => rfl, ?_, ?_, by with_unfolding_all rfl, rfl⟩
  · intro r name t w h
    show (t (rawEnvelope r name)).map V.value = .ok w.value
    rw [h]; rfl
  · intro r name t e h
    show (t (rawEnvelope r name)).map V.value = .error e
    rw [h]; rfl

/-- Witness for C4: transform success and transform error at concrete
mappings. -/
theorem C4_ev_evaluator_witness :
    ev (.basic fun k => if k = "KEY" then some "v" else none) "KEY" (some must) =
      .ok (.str "v") ∧
    ev (.basic fun _ => none) "M" (some must) = .error (.error "M is not defined") :=
  ⟨C4_ev_evaluator.2.2.2.1 (.basic fun k => if k = "KEY" then some "v" else none) "KEY"
      must { value := .str "v", name := "KEY", secret := false } (by with_unfolding_all rfl),
    C4_ev_evaluator.2.2.2.2.1 (.basic fun _ => none) "M"
      must (.error "M is not defined") (by with_unfolding_all rfl)⟩

/-- C5: the bound evaluator from `bind(r, a)` evaluates
`ev(r, name, a(t))` when both an applier and a transform are given —
the applier wraps the composite transform exactly once, as the
bracketing applier shows on a two-stage pipeline (one pair of
brackets, not one per stage); without an applier it evaluates
`ev(r, name, t)`, and with no transform it returns the raw value. -/
theorem C5_bind_applier :
    (∀ r a name t, bind r (some a) name (some t) = ev (.reader r) name (some (a t))) ∧
    (∀ r name t, bind r none name (some t) = ev (.reader r) name (some t)) ∧
    (∀ r ap name, bind r ap name none = ev (.reader r) name none) ∧
    bind demoReader (some tagApplier) "K" (some (pipe [must, must])) = .ok (.str "[x]") ∧
    bind demoReader (some tagApplier) "K" (some must) = .ok (.str "[x]") := by
  refine ⟨fun r a name t => rfl, fun r name t => rfl, ?_, by with_unfolding_all rfl, by with_unfolding_all rfl⟩
  intro r ap name
  cases ap <;> rfl

/-- C10: a bound evaluator called with a name and no transform returns
the raw value and never invokes the applier: the result does not
depend on which applier was bound (or on whether one was bound at
all). -/
theorem C10_raw_lookup_bypasses_applier :
    (∀ r a name, bind r (some a) name none = .ok (r name).value) ∧
    (∀ r a a' name, bind r (some a) name none = bind r (some a') name none) ∧
    (∀ r a name, bind r (some a) name none = bind r none name none) :=
  ⟨fun _ _ _ => rfl, fun _ _ _ _ => rfl, fun _ _ _ => rfl⟩

/-- C6: whenever a built-in transformer succeeds it preserves the
input's `name`; every built-in except `secret` also preserves the
`secret` flag; `secret` sets the flag with value and name unchanged
and is idempotent. -/
theorem C6_metadata_invariants :
    (∀ v w, must v = .ok w → w.name = v.name ∧ w.secret = v.secret) ∧
    (∀ v w, asISODate v = .ok w → w.name = v.name ∧ w.secret = v.secret) ∧
    (∀ v w d, asDuration v d = .ok w → w.name = v.name ∧ w.secret = v.secret) ∧
    (∀ v w d, asInt v d = .ok w → w.name = v.name ∧ w.secret = v.secret) ∧
    (∀ v w b, asBool v b = .ok w → w.name = v.name ∧ w.secret = v.secret) ∧
    (∀ v, secret v = .ok { value := v.value, name := v.name, secret := true }) ∧
    (∀ v, (secret v).bind secret = secret v) := by
  refine ⟨?_, ?_, ?_, ?_, ?_, fun v => rfl, fun v => rfl⟩
  · intro v w h
    unfold must at h
    repeat' split at h
    all_goals first
      | exact Except.noConfusion h
      | (obtain rfl := Except.ok.inj h; exact ⟨rfl, rfl⟩)
  · intro v w h
    unfold asISODate at h
    repeat' split at h
    all_goals first
      | exact Except.noConfusion h
      | (obtain rfl := Except.ok.inj h; exact ⟨rfl, rfl⟩)
  · intro v w d h
    unfold asDuration at h
    repeat' split at h
    all_goals first
      | exact Except.noConfusion h
      | (obtain rfl := Except.ok.inj h; exact ⟨rfl, rfl⟩)
  · intro v w d h
    unfold asInt at h
    repeat' split at h
    all_goals first
      | exact Except.noConfusion h
      | (obtain rfl := Except.ok.inj h; exact ⟨rfl, rfl⟩)
  · intro v w b h
    unfold asBool at h
    repeat' split at h
    all_goals first
      | exact Except.noConfusion h
      | (obtain rfl := Except.ok.inj h; exact ⟨rfl, rfl⟩)

/-- Witness for C6: each success clause discharged at a concrete
envelope on which the transformer succeeds. -/
theorem C6_metadata_invariants_witness :
    (must { value := .str "x", name := "n", secret := true } =
        .ok { value := .str "x", name := "n", secret := true } ∧
      V.name { value := .str "x", name := "n", secret := true } = "n") ∧
    (asISODate { value := .str "1970-01-01T00:00:00.000Z", name := "n", secret := true } =
        .ok { value := .date 0, name := "n", secret := true } ∧
      V.name { value := .date 0, name := "n", secret := true } = "n") ∧
    (asDuration { value := .undef, name := "n", secret := true } 5 =
        .ok { value := .num (.val 5), name := "n", secret := true } ∧
      V.secret { value := .num (.val 5), name := "n", secret := true } = true) ∧
    (asInt { value := .str "42", name := "n", secret := false } 0 =
        .ok { value := .num (.val 42), name := "n", secret := false } ∧
      V.secret { value := .num (.val 42), name := "n", secret := false } = false) ∧
    (asBool { value := .str "On", name := "n", secret := false } false =
        .ok { value := .bool true, name := "n", secret := false } ∧
      V.name { value := .bool true, name := "n", secret := false } = "n") := by
  have h1 : must { value := .str "x", name := "n", secret := true } =
      .ok { value := .str "x", name := "n", secret := true } := by with_unfolding_all rfl
  have h2 : asISODate { value := .str "1970-01-01T00:00:00.000Z", name := "n", secret := true } =
      .ok { value := .date 0, name := "n", secret := true } := by with_unfolding_all rfl
  have h3 : asDuration { value := .undef, name := "n", secret := true } 5 =
      .ok { value := .num (.val 5), name := "n", secret := true } := by with_unfolding_all rfl
  have h4 : asInt { value := .str "42", name := "n", secret := false } 0 =
      .ok { value := .num (.val 42), name := "n", secret := false } := by with_unfolding_all rfl
  have h5 : asBool { value := .str "On", name := "n", secret := false } false =
      .ok { value := .bool true, name := "n", secret := false } := by with_unfolding_all rfl
  exact ⟨⟨h1, (C6_metadata_invariants.1 _ _ h1).1⟩,
    ⟨h2, (C6_metadata_invariants.2.1 _ _ h2).1⟩,
    ⟨h3, (C6_metadata_invariants.2.2.1 _ _ _ h3).2⟩,
    ⟨h4, (C6_metadata_invariants.2.2.2.1 _ _ _ h4).2⟩,
    ⟨h5, (C6_metadata_invariants.2.2.2.2.1 _ _ _ h5).1⟩⟩

/-- C7 counterexample: the claim says every non-round-tripping
non-empty string raises "`<name>` is not a valid date", but on a
string the `Date` constructor cannot parse at all, `toISOString()`
itself throws a `RangeError` before the custom error is reached. -/
theorem C7_counterexample :
    asISODate { value := .str "garbage", name := "X", secret := false } =
      .error (.rangeError "Invalid time value") ∧
    asISODate { value := .str "garbage", name := "X", secret := false } ≠
      .error (.error "X is not a valid date") := by
  constructor
  · with_unfolding_all rfl
  · intro h
    rw [show asISODate { value := .str "garbage", name := "X", secret := false } =
      .error (.rangeError "Invalid time value") by with_unfolding_all rfl] at h
    exact JSError.noConfusion (Except.error.inj h)

/-- C7 amended: on a string value, `asISODate` succeeds exactly on
strings equal to the ISO form of their parse, returning that `Date`;
it raises "`<name>` is not a valid date" when the string parses to a
valid `Date` but differs from its ISO form; when the string does not
parse, the `toISOString()` call raises `RangeError` "Invalid time
value" instead of the custom error. -/
theorem C7_asISODate_amended (v : V) (s : String) (t : ℤ) :
    (v.value = .str s → jsDateParse s = some t →
      (toISO t = s →
        asISODate v = .ok { value := .date t, name := v.name, secret := v.secret }) ∧
      (toISO t ≠ s →
        asISODate v = .error (.error (v.name ++ " is not a valid date")))) ∧
    (v.value = .str s → jsDateParse s = none →
      asISODate v = .error (.rangeError "Invalid time value")) ∧
    (v.value = .str s →
      ((∃ w, asISODate v = .ok w) ↔ ∃ u, jsDateParse s = some u ∧ toISO u = s)) := by
  refine ⟨fun hv hp => ⟨fun hiso => ?_, fun hiso => ?_⟩, fun hv hp => ?_, fun hv => ?_⟩
  · simp [asISODate, hv, jsNewDate, hp, jsToISOString, hiso]
  · simp [asISODate, hv, jsNewDate, hp, jsToISOString, Ne.symm hiso]
  · simp [asISODate, hv, jsNewDate, hp, jsToISOString]
  · cases hp : jsDateParse s with
    | some u =>
      by_cases hiso : toISO u = s
      · refine ⟨fun _ => ⟨u, rfl, hiso⟩,
          fun _ => ⟨{ value := .date u, name := v.name, secret := v.secret }, ?_⟩⟩
        simp [asISODate, hv, jsNewDate, hp, jsToISOString, hiso]
      · constructor
        · rintro ⟨w, hw⟩
          simp [asISODate, hv, jsNewDate, hp, jsToISOString, Ne.symm hiso] at hw
        · rintro ⟨u', hu', hiso'⟩
          obtain rfl := Option.some.inj hu'
          exact absurd hiso' hiso
    | none =>
      constructor
      · rintro ⟨w, hw⟩
        simp [asISODate, hv, jsNewDate, hp, jsToISOString] at hw
      · rintro ⟨u', hu', _⟩
        exact Option.noConfusion hu'

/-- Witness for C7: the amended success clause at a concrete ISO
string. -/
theorem C7_asISODate_amended_witness :
    jsDateParse "1970-01-01T00:00:00.000Z" = some 0 ∧
    toISO 0 = "1970-01-01T00:00:00.000Z" ∧
    asISODate { value := .str "1970-01-01T00:00:00.000Z", name := "N", secret := false } =
      .ok { value := .date 0, name := "N", secret := false } :=
  ⟨by with_unfolding_all rfl, by with_unfolding_all rfl,
    ((C7_asISODate_amended
        { value := .str "1970-01-01T00:00:00.000Z", name := "N", secret := false }
        "1970-01-01T00:00:00.000Z" 0).1 rfl
      (by with_unfolding_all rfl)).1 (by with_unfolding_all rfl)⟩

/-- C8: `must` is the identity on a defined non-empty string value
(preserving name and secret), and on string-or-undefined inputs it
raises "`<name>` is not defined" exactly when the value is undefined
or the empty string. -/
theorem C8_must_spec (v : V) (s : String) :
    (v.value = .str s → s ≠ "" →
      must v = .ok { value := .str s, name := v.name, secret := v.secret }) ∧
    ((v.value = .undef ∨ v.value = .str s) →
      (must v = .error (.error (v.name ++ " is not defined")) ↔
        (v.value = .undef ∨ v.value = .str ""))) := by
  constructor
  · intro hv hs
    simp [must, truthy, hv, hs]
  · rintro (h | h)
    · simp [must, truthy, h]
    · by_cases hs : s = ""
      · subst hs
        simp [must, truthy, h]
      · simp [must, truthy, h, hs]

/-- Witness for C8: the identity clause at value `"x"` and the error
characterisation at an undefined value. -/
theorem C8_must_spec_witness :
    must { value := .str "x", name := "N", secret := false } =
      .ok { value := .str "x", name := "N", secret := false } ∧
    (must { value := .undef, name := "N", secret := false } =
        .error (.error "N is not defined") ↔
      (JSVal.undef = JSVal.undef ∨ JSVal.undef = JSVal.str "")) :=
  ⟨(C8_must_spec { value := .str "x", name := "N", secret := false } "x").1 rfl
      (by decide),
    (C8_must_spec { value := .undef, name := "N", secret := false } "y").2 (Or.inl rfl)⟩

/-- C9: `asInt` returns the default when the value is undefined;
on a defined string it returns `Number(value)` and raises
"`<name>` is not a number" exactly when that parse is NaN; the empty
string numerically parses to 0; `"42" ↦ 42`, undefined with default
7 ↦ 7, and `"not-a-number"` throws. -/
theorem C9_asInt_spec (v : V) (d : ℚ) (s : String) :
    (v.value = .undef →
      asInt v d = .ok { value := .num (.val d), name := v.name, secret := v.secret }) ∧
    (v.value = .str s →
      (jsStringToNum s = .nan →
        asInt v d = .error (.error (v.name ++ " is not a number"))) ∧
      (jsStringToNum s ≠ .nan →
        asInt v d = .ok { value := .num (jsStringToNum s), name := v.name, secret := v.secret })) ∧
    jsStringToNum "" = .val 0 ∧
    asInt { value := .str "42", name := "X", secret := false } 0 =
      .ok { value := .num (.val 42), name := "X", secret := false } ∧
    asInt { value := .undef, name := "X", secret := false } 7 =
      .ok { value := .num (.val 7), name := "X", secret := false } ∧
    asInt { value := .str "not-a-number", name := "X", secret := false } 0 =
      .error (.error "X is not a number") := by
  refine ⟨fun hv => ?_, fun hv => ⟨fun hn => ?_, fun hn => ?_⟩,
    by with_unfolding_all rfl, by with_unfolding_all rfl,
    by with_unfolding_all rfl, by with_unfolding_all rfl⟩
  · simp [asInt, hv]
  · simp [asInt, hv, jsToNumber, hn]
  · simp [asInt, hv, jsToNumber, hn]

/-- Witness for C9: the string clause at the empty string (parsing to
0, not an error) and the undefined clause at default 3. -/
theorem C9_asInt_spec_witness :
    asInt { value := .str "", name := "N", secret := false } 3 =
      .ok { value := .num (jsStringToNum ""), name := "N", secret := false } ∧
    asInt { value := .undef, name := "N", secret := true } 3 =
      .ok { value := .num (.val 3), name := "N", secret := true } :=
  ⟨((C9_asInt_spec { value := .str "", name := "N", secret := false } 3 "").2.1 rfl).2
      (by with_unfolding_all decide),
    (C9_asInt_spec { value := .undef, name := "N", secret := true } 3 "y").1 rfl⟩

end Eevee
